import Mathlib

/-!
Verification development for the RSBC DataHub prohibition rules engine and
VIPS date/time utilities.

The Python `datetime` values that flow through `python/common/prohibitions.py`
are modelled by `PyDatetime`: a wall-clock reading in seconds together with an
optional fixed UTC offset (`none` models a naive datetime, `some o` a
timezone-aware one whose `utcoffset()` is `o` seconds).  Python compares two
aware datetimes by their absolute instants (wall minus offset), compares two
naive datetimes by wall clock, and raises `TypeError` on an order comparison
between a naive and an aware value; `==` between naive and aware returns
`False` instead of raising.  Adding a `timedelta` shifts the wall clock and
keeps the `tzinfo`.
-/

/-- Model of a Python `datetime`: wall-clock seconds plus optional fixed
UTC offset in seconds (`none` = naive). -/
structure PyDatetime where
  wall : Int
  tzoffset : Option Int
deriving DecidableEq

/-- Seconds per day, the scale used by `timedelta(days=n)`. -/
def SECONDS_PER_DAY : Int := 86400

/-- `d + timedelta(days=n)`: shifts the wall clock, keeps the `tzinfo`. -/
def addDays (d : PyDatetime) (n : Int) : PyDatetime :=
  { d with wall := d.wall + n * SECONDS_PER_DAY }

/-- `d.replace(tzinfo=tz)` for a fixed-offset zone: overwrites the offset,
leaves every wall-clock field unchanged. -/
def replace_tzinfo (d : PyDatetime) (off : Int) : PyDatetime :=
  { d with tzoffset := some off }

/-- The fixed UTC offset (in seconds) that `pytz.timezone('America/Vancouver')`
attaches when installed via `datetime.replace` (the zone's base offset). -/
def vancouverOffset : Int := -29548

/-- Python `a < b` on datetimes: wall-clock order when both are naive,
instant order when both are aware, `TypeError` (`none`) when mixed. -/
def pyLt? (a b : PyDatetime) : Option Bool :=
  match a.tzoffset, b.tzoffset with
  | none, none => some (decide (a.wall < b.wall))
  | some oa, some ob => some (decide (a.wall - oa < b.wall - ob))
  | _, _ => none

/-- Python `a <= b` on datetimes, with the same definedness as `pyLt?`. -/
def pyLe? (a b : PyDatetime) : Option Bool :=
  match a.tzoffset, b.tzoffset with
  | none, none => some (decide (a.wall ≤ b.wall))
  | some oa, some ob => some (decide (a.wall - oa ≤ b.wall - ob))
  | _, _ => none

/-- Python `a == b` on datetimes: naive/aware mixes compare unequal rather
than raising. -/
def pyEq? (a b : PyDatetime) : Option Bool :=
  match a.tzoffset, b.tzoffset with
  | none, none => some (decide (a.wall = b.wall))
  | some oa, some ob => some (decide (a.wall - oa = b.wall - ob))
  | _, _ => some false

/-! ### `python/common/prohibitions.py` -/

def ProhibitionBase.WRITTEN_REVIEW_PRICE : Nat := 100

def ProhibitionBase.ORAL_REVIEW_PRICE : Nat := 200

def ProhibitionBase.MIN_DAYS_FROM_SCHEDULING_TO_REVIEW : Int := 4

def ProhibitionBase.MIN_DAYS_FROM_SERVED_TO_REVIEW : Int := 6

def ProhibitionBase.MAX_DAYS_FROM_SERVED_TO_REVIEW : Int := 16

/-- `ProhibitionBase.get_min_max_review_dates`.  Computes
`earliest_possible_date = today.replace(tzinfo=America/Vancouver) + 4 days`,
raises the legislated minimum (`service_date + 6 days`) and the legislated
maximum (`service_date + 16 days`) up to `earliest_possible_date` when the
latter is strictly greater, and returns the pair.  The two order comparisons
raise `TypeError` (modelled by `none`) when `service_date` is naive, because
`earliest_possible_date` is always aware. -/
def ProhibitionBase.get_min_max_review_dates (service_date today : PyDatetime) :
    Option (PyDatetime × PyDatetime) :=
  let earliest_possible_date :=
    addDays (replace_tzinfo today vancouverOffset)
      ProhibitionBase.MIN_DAYS_FROM_SCHEDULING_TO_REVIEW
  let legislated_minimum :=
    addDays service_date ProhibitionBase.MIN_DAYS_FROM_SERVED_TO_REVIEW
  match pyLt? legislated_minimum earliest_possible_date with
  | none => none
  | some gtMin =>
    let legislated_minimum :=
      if gtMin then earliest_possible_date else legislated_minimum
    let legislated_maximum :=
      addDays service_date ProhibitionBase.MAX_DAYS_FROM_SERVED_TO_REVIEW
    match pyLt? legislated_maximum earliest_possible_date with
    | none => none
    | some gtMax =>
      let legislated_maximum :=
        if gtMax then earliest_possible_date else legislated_maximum
      some (legislated_minimum, legislated_maximum)

/-- `ProhibitionBase.amount_due`: `"WRIT"` and `"ORAL"` map to the two
prices; any other presentation type falls through and returns `None`. -/
def ProhibitionBase.amount_due (presentation_type : String) : Option Nat :=
  if presentation_type = "WRIT" then some ProhibitionBase.WRITTEN_REVIEW_PRICE
  else if presentation_type = "ORAL" then some ProhibitionBase.ORAL_REVIEW_PRICE
  else none

def UnlicencedDriver.WRITTEN_REVIEW_PRICE : Nat := 50

def UnlicencedDriver.MIN_DAYS_FROM_SCHEDULING_TO_REVIEW : Int :=
  ProhibitionBase.MIN_DAYS_FROM_SCHEDULING_TO_REVIEW

def UnlicencedDriver.MAX_DAYS_FROM_SERVED_TO_REVIEW : Int :=
  ProhibitionBase.MAX_DAYS_FROM_SERVED_TO_REVIEW

/-- Modelled from the spec: `localize_timezone` lives in
`python/common/helper.py`, which is not part of the sources; §4.1 says it
attaches the fixed civil timezone "America/Vancouver" offset to a naive
timestamp, leaving the wall-clock fields unchanged, and is idempotent on an
already-aware timestamp. -/
def localize_timezone (date_time : PyDatetime) : PyDatetime :=
  match date_time.tzoffset with
  | none => { date_time with tzoffset := some vancouverOffset }
  | some _ => date_time

/-- `UnlicencedDriver.get_min_max_review_dates`: ignores `service_date`;
both bounds are measured from `localize_timezone(today)`. -/
def UnlicencedDriver.get_min_max_review_dates (service_date today : PyDatetime) :
    PyDatetime × PyDatetime :=
  let min_date :=
    addDays (localize_timezone today) UnlicencedDriver.MIN_DAYS_FROM_SCHEDULING_TO_REVIEW
  let max_date :=
    addDays (localize_timezone today) UnlicencedDriver.MAX_DAYS_FROM_SERVED_TO_REVIEW
  (min_date, max_date)

/-- `UnlicencedDriver.amount_due`: always the written review price. -/
def UnlicencedDriver.amount_due (presentation_type : String) : Option Nat :=
  some UnlicencedDriver.WRITTEN_REVIEW_PRICE

/-- The closed set of prohibition policy variants (`ImmediateRoadside` and
`AdministrativeDriving` inherit every behaviour from `ProhibitionBase`). -/
inductive ProhibitionType where
  | base
  | unlicencedDriver
  | immediateRoadside
  | administrativeDriving
deriving DecidableEq

/-- `prohibition_factory`: maps the three recognized codes to their policy
variants and returns `None` (after logging) on anything else. -/
def prohibition_factory (prohibition_type : String) : Option ProhibitionType :=
  if prohibition_type = "UL" then some ProhibitionType.unlicencedDriver
  else if prohibition_type = "IRP" then some ProhibitionType.immediateRoadside
  else if prohibition_type = "ADP" then some ProhibitionType.administrativeDriving
  else none

/-- Per-variant dispatch of `get_min_max_review_dates`: only
`UnlicencedDriver` overrides the base method. -/
def ProhibitionType.get_min_max_review_dates :
    ProhibitionType → PyDatetime → PyDatetime → Option (PyDatetime × PyDatetime)
  | ProhibitionType.unlicencedDriver, service_date, today =>
      some (UnlicencedDriver.get_min_max_review_dates service_date today)
  | _, service_date, today =>
      ProhibitionBase.get_min_max_review_dates service_date today

/-- Per-variant dispatch of `amount_due`: only `UnlicencedDriver` overrides
the base method. -/
def ProhibitionType.amount_due : ProhibitionType → String → Option Nat
  | ProhibitionType.unlicencedDriver, presentation_type =>
      UnlicencedDriver.amount_due presentation_type
  | _, presentation_type => ProhibitionBase.amount_due presentation_type

/-! ### Spec-side review-window algorithm (for the refinement claim) -/

/-- Modelled from the spec: the §4.1 normalizer, "attach the fixed civil
timezone America/Vancouver offset, producing a timezone-aware timestamp whose
wall-clock fields are unchanged". -/
def normalize_spec (t : PyDatetime) : PyDatetime :=
  { t with tzoffset := some vancouverOffset }

/-- Python `max(a, b)`: returns `b` only when it is strictly greater;
undefined (`none`) exactly when the comparison raises `TypeError`. -/
def pymax (a b : PyDatetime) : Option PyDatetime :=
  match pyLt? a b with
  | none => none
  | some bGreater => some (if bGreater then b else a)

/-- Modelled from the spec: the five-step §4.3 base algorithm, written
independently of the source.  Step 1: `earliestPossible = normalize(today) +
minDaysSchedulingToReview days`; steps 2–3: `minimumDate =
max(earliestPossible, serviceDate + minDaysServedToReview days)`; steps 4–5:
`maximumDate = max(earliestPossible, serviceDate + maxDaysServedToReview
days)`. -/
def computeWindow_spec (serviceDate today : PyDatetime) :
    Option (PyDatetime × PyDatetime) :=
  let earliestPossible :=
    addDays (normalize_spec today) ProhibitionBase.MIN_DAYS_FROM_SCHEDULING_TO_REVIEW
  let legislatedMin := addDays serviceDate ProhibitionBase.MIN_DAYS_FROM_SERVED_TO_REVIEW
  let legislatedMax := addDays serviceDate ProhibitionBase.MAX_DAYS_FROM_SERVED_TO_REVIEW
  match pymax earliestPossible legislatedMin, pymax earliestPossible legislatedMax with
  | some minimumDate, some maximumDate => some (minimumDate, maximumDate)
  | _, _ => none

/-- Agreement of two optional review windows up to Python `==` on datetimes
(equal instants): the relation the refinement claim is stated with. -/
def windowResultsAgree :
    Option (PyDatetime × PyDatetime) → Option (PyDatetime × PyDatetime) → Prop
  | none, none => True
  | some (a, b), some (c, d) => pyEq? a c = some true ∧ pyEq? b d = some true
  | _, _ => False

/-! ### VIPS external date format bridge

`vips_datetime` and `vips_str_to_datetime` live in
`python/common/vips_api.py`, which is not part of the sources; both are
modelled from the spec (§4.5).  A timestamp is a record of calendar fields
plus a signed `HH:MM` UTC offset; the external string format is
`YYYY-MM-DD HH:MM:SS ±HH:MM` (space before the offset, colon inside it). -/

/-- A timezone-aware calendar timestamp at the granularity of the external
format: wall-clock fields plus a signed hours/minutes UTC offset. -/
structure VipsDateTime where
  year : Nat
  month : Nat
  day : Nat
  hour : Nat
  minute : Nat
  second : Nat
  offNeg : Bool
  offHour : Nat
  offMinute : Nat
deriving DecidableEq

/-- Field bounds under which a `VipsDateTime` denotes a valid timestamp of
the external format. -/
def VipsDateTime.valid (t : VipsDateTime) : Prop :=
  t.year < 10000 ∧ 1 ≤ t.month ∧ t.month ≤ 12 ∧ 1 ≤ t.day ∧ t.day ≤ 31 ∧
    t.hour < 24 ∧ t.minute < 60 ∧ t.second < 60 ∧ t.offHour < 24 ∧ t.offMinute < 60

instance (t : VipsDateTime) : Decidable t.valid := by
  unfold VipsDateTime.valid
  infer_instance

/-- The decimal digit character for `n < 10` (clamped at `9`). -/
def digitChar (n : Nat) : Char :=
  match n with
  | 0 => '0'
  | 1 => '1'
  | 2 => '2'
  | 3 => '3'
  | 4 => '4'
  | 5 => '5'
  | 6 => '6'
  | 7 => '7'
  | 8 => '8'
  | _ => '9'

/-- Two-digit zero-padded decimal rendering. -/
def pad2 (n : Nat) : List Char :=
  [digitChar (n / 10), digitChar (n % 10)]

/-- Four-digit zero-padded decimal rendering. -/
def pad4 (n : Nat) : List Char :=
  [digitChar (n / 1000), digitChar (n / 100 % 10), digitChar (n / 10 % 10), digitChar (n % 10)]

/-- The character sequence `YYYY-MM-DD HH:MM:SS ±HH:MM` for a timestamp. -/
def fmtChars (t : VipsDateTime) : List Char :=
  pad4 t.year ++ '-' :: pad2 t.month ++ '-' :: pad2 t.day ++
    ' ' :: pad2 t.hour ++ ':' :: pad2 t.minute ++ ':' :: pad2 t.second ++
    ' ' :: (if t.offNeg then '-' else '+') :: pad2 t.offHour ++ ':' :: pad2 t.offMinute

/-- Modelled from the spec: `formatExternalDateTime` (`vips_datetime` in
`python/common/vips_api.py`, absent from the sources): renders a
timezone-aware timestamp as `YYYY-MM-DD HH:MM:SS ±HH:MM`, space before the
offset and colon inside it. -/
def vips_datetime (t : VipsDateTime) : String :=
  String.mk (fmtChars t)

/-- The value of a decimal digit character, `none` on a non-digit. -/
def digitVal (c : Char) : Option Nat :=
  if 48 ≤ c.toNat ∧ c.toNat ≤ 57 then some (c.toNat - 48) else none

/-- Reads two digit characters as a two-digit decimal number. -/
def read2 (a b : Char) : Option Nat :=
  match digitVal a, digitVal b with
  | some x, some y => some (10 * x + y)
  | _, _ => none

/-- Reads four digit characters as a four-digit decimal number. -/
def read4 (a b c d : Char) : Option Nat :=
  match digitVal a, digitVal b, digitVal c, digitVal d with
  | some x, some y, some z, some w => some (1000 * x + 100 * y + 10 * z + w)
  | _, _, _, _ => none

/-- Parses the 26-character external pattern `YYYY-MM-DD HH:MM:SS ±HH:MM`,
checking the separators, the digits and the field bounds; any mismatch is a
`MalformedExternalDate` (`none`). -/
def parseVipsChars : List Char → Option VipsDateTime
  | [y1, y2, y3, y4, s1, mo1, mo2, s2, d1, d2, s3, h1, h2, s4, mi1, mi2, s5,
      se1, se2, s6, sg, oh1, oh2, s7, om1, om2] =>
    if s1 = '-' ∧ s2 = '-' ∧ s3 = ' ' ∧ s4 = ':' ∧ s5 = ':' ∧ s6 = ' ' ∧ s7 = ':' ∧
        (sg = '+' ∨ sg = '-') then
      match read4 y1 y2 y3 y4, read2 mo1 mo2, read2 d1 d2, read2 h1 h2,
          read2 mi1 mi2, read2 se1 se2, read2 oh1 oh2, read2 om1 om2 with
      | some y, some mo, some d, some h, some mi, some se, some oh, some om =>
        let t : VipsDateTime :=
          { year := y, month := mo, day := d, hour := h, minute := mi,
            second := se, offNeg := sg = '-', offHour := oh, offMinute := om }
        if t.valid then some t else none
      | _, _, _, _, _, _, _, _ => none
    else none
  | _ => none

/-- Modelled from the spec: `parseExternalDateTime` (`vips_str_to_datetime`
in `python/common/vips_api.py`, absent from the sources): parses the
`YYYY-MM-DD HH:MM:SS ±HH:MM` external format into a timezone-aware
timestamp, failing on any string that does not match the pattern or does not
denote a valid timestamp. -/
def vips_str_to_datetime (s : String) : Option VipsDateTime :=
  parseVipsChars s.data

/-! ### Weekday range enumerator

`list_of_weekdays_dates_between` lives in `python/common/vips_api.py`, absent
from the sources; it is modelled from the spec (§4.6) over dates represented
as day numbers (days since 1970-01-01). -/

/-- Day number (days since 1970-01-01) of the civil date `y-m-d`, by the
standard era-based civil calendar computation. -/
def days_from_civil (y : Int) (m d : Nat) : Int :=
  let yAdj : Int := if m ≤ 2 then y - 1 else y
  let era : Int := (if 0 ≤ yAdj then yAdj else yAdj - 399) / 400
  let yoe : Int := yAdj - era * 400
  let doy : Int := (153 * (if 2 < m then (m : Int) - 3 else (m : Int) + 9) + 2) / 5 + d - 1
  let doe : Int := yoe * 365 + yoe / 4 - yoe / 100 + doy
  era * 146097 + doe - 719468

/-- Python `date.weekday()` on a day number: Monday = 0 … Sunday = 6
(1970-01-01 was a Thursday, weekday 3). -/
def pyWeekday (d : Int) : Nat :=
  ((d % 7 + 3) % 7).toNat

/-- Modelled from the spec: `list_of_weekdays_dates_between` in
`python/common/vips_api.py`, absent from the sources.  §4.6: the ordered
sequence of dates from `start_date` to `end_date` inclusive restricted to
Monday–Friday, empty when `start_date > end_date`. -/
def list_of_weekdays_dates_between (start_date end_date : Int) : List Int :=
  ((List.range (end_date + 1 - start_date).toNat).map
      (fun (i : Nat) => start_date + (i : Int))).filter
    (fun d => decide (pyWeekday d < 5))

/-! ### Schedule slot formatter

`time_slots_to_friendly_times` lives in `python/common/vips_api.py`, absent
from the sources; it is modelled from the spec (§4.7): keep the slots whose
presentation-mode tag matches the requested presentation type, drop the slots
marked unavailable, and render each survivor, in input order, as a labelled
friendly slot. -/

/-- A raw schedule slot from the external system: start and end timestamps,
an availability flag and a presentation-mode tag (`WRIT`/`ORAL`). -/
structure ScheduleSlot where
  start : VipsDateTime
  stop : VipsDateTime
  available : Bool
  tag : String
deriving DecidableEq

/-- A display-ready slot: a human-readable label plus the originating start
and end timestamps. -/
structure FriendlyTimeSlot where
  label : String
  start : VipsDateTime
  stop : VipsDateTime
deriving DecidableEq

/-- Three-letter abbreviation of a Python weekday number (Monday = 0). -/
def weekdayAbbrev : Nat → String
  | 0 => "Mon"
  | 1 => "Tue"
  | 2 => "Wed"
  | 3 => "Thu"
  | 4 => "Fri"
  | 5 => "Sat"
  | _ => "Sun"

/-- Three-letter abbreviation of a month number (January = 1). -/
def monthAbbrev : Nat → String
  | 1 => "Jan"
  | 2 => "Feb"
  | 3 => "Mar"
  | 4 => "Apr"
  | 5 => "May"
  | 6 => "Jun"
  | 7 => "Jul"
  | 8 => "Aug"
  | 9 => "Sep"
  | 10 => "Oct"
  | 11 => "Nov"
  | _ => "Dec"

/-- 12-hour clock rendering of a time of day: hour without a leading zero,
zero-padded minutes, `AM`/`PM` suffix (so 0 h is `12:MMAM`, 12 h is
`12:MMPM`, 13 h is `1:MMPM`). -/
def fmtTime12 (t : VipsDateTime) : String :=
  let h12 : Nat := if t.hour % 12 = 0 then 12 else t.hour % 12
  let suffix : String := if t.hour < 12 then "AM" else "PM"
  Nat.repr h12 ++ ":" ++ String.mk (pad2 t.minute) ++ suffix

/-- The friendly label `Wkd, Mon D, YYYY - H:MMAM to H:MMPM` built from a
slot's start and end timestamps. -/
def friendlyLabel (start stop : VipsDateTime) : String :=
  weekdayAbbrev (pyWeekday (days_from_civil start.year start.month start.day)) ++ ", " ++
    monthAbbrev start.month ++ " " ++ Nat.repr start.day ++ ", " ++ Nat.repr start.year ++
    " - " ++ fmtTime12 start ++ " to " ++ fmtTime12 stop

/-- Modelled from the spec: `time_slots_to_friendly_times` in
`python/common/vips_api.py`, absent from the sources.  §4.7: preserve input
order, keep slots whose tag matches the presentation type, exclude slots the
external system marks unavailable, and label each kept slot. -/
def time_slots_to_friendly_times (time_slots : List ScheduleSlot)
    (presentation_type : String) : List FriendlyTimeSlot :=
  (time_slots.filter (fun s => s.available && s.tag == presentation_type)).map
    (fun s => { label := friendlyLabel s.start s.stop, start := s.start, stop := s.stop })

/-- A wall-clock time on 2020-09-04 at offset `-07:00`, as a timestamp of
the external format. -/
def fixtureTime (h m : Nat) : VipsDateTime :=
  { year := 2020, month := 9, day := 4, hour := h, minute := m, second := 0,
    offNeg := true, offHour := 7, offMinute := 0 }

/-- A 30-minute `ORAL` slot on 2020-09-04 (offset `-07:00`) with the given
availability flag: the shape of the slots in the repository's
`vips_schedule_200.json` fixture. -/
def fixtureSlot (avail : Bool) (h1 m1 h2 m2 : Nat) : ScheduleSlot :=
  { start := fixtureTime h1 m1, stop := fixtureTime h2 m2,
    available := avail, tag := "ORAL" }

/-- The known five-slot 2020-09-04 schedule fixture: half-hour oral slots at
9:00, 10:00, 11:00, 12:00 and 13:00, all available. -/
def scheduleFixture : List ScheduleSlot :=
  [fixtureSlot true 9 0 9 30, fixtureSlot true 10 0 10 30, fixtureSlot true 11 0 11 30,
    fixtureSlot true 12 0 12 30, fixtureSlot true 13 0 13 30]

/-! ## Theorems -/

/-- C4: `UnlicencedDriver.get_min_max_review_dates` never looks at the
service date, and for every `today` it returns
`(localize_timezone(today) + 4 days, localize_timezone(today) + 16 days)`. -/
theorem C4_unlicenced_ignores_service_date :
    (∀ sd1 sd2 today : PyDatetime,
      UnlicencedDriver.get_min_max_review_dates sd1 today =
        UnlicencedDriver.get_min_max_review_dates sd2 today) ∧
    (∀ sd today : PyDatetime,
      UnlicencedDriver.get_min_max_review_dates sd today =
        (addDays (localize_timezone today) 4, addDays (localize_timezone today) 16)) := by
  exact ⟨fun sd1 sd2 today => rfl, fun sd today => rfl⟩

/-- C5: `prohibition_factory` maps `"UL"`, `"IRP"`, `"ADP"` to their policy
variants and returns `None` on every other string, without raising. -/
theorem C5_prohibition_factory_mapping :
    prohibition_factory "UL" = some ProhibitionType.unlicencedDriver ∧
    prohibition_factory "IRP" = some ProhibitionType.immediateRoadside ∧
    prohibition_factory "ADP" = some ProhibitionType.administrativeDriving ∧
    ∀ s : String, s ≠ "UL" → s ≠ "IRP" → s ≠ "ADP" → prohibition_factory s = none := by
  refine ⟨rfl, rfl, rfl, ?_⟩
  intro s h1 h2 h3
  simp [prohibition_factory, h1, h2, h3]

/-- Witness for C5 at the unknown code `"XX"`. -/
theorem C5_prohibition_factory_mapping_witness :
    prohibition_factory "XX" = none :=
  C5_prohibition_factory_mapping.2.2.2 "XX" (by decide) (by decide) (by decide)

/-- C6: the base fee schedule returns 100 for `"WRIT"`, 200 for `"ORAL"`
and `None` otherwise; the `UnlicencedDriver` override returns 50 for every
presentation type, in particular for `"ORAL"`. -/
theorem C6_amount_due_schedule :
    ProhibitionBase.amount_due "WRIT" = some ProhibitionBase.WRITTEN_REVIEW_PRICE ∧
    ProhibitionBase.amount_due "ORAL" = some ProhibitionBase.ORAL_REVIEW_PRICE ∧
    (∀ s : String, s ≠ "WRIT" → s ≠ "ORAL" → ProhibitionBase.amount_due s = none) ∧
    ∀ s : String, UnlicencedDriver.amount_due s = some UnlicencedDriver.WRITTEN_REVIEW_PRICE := by
  refine ⟨rfl, rfl, ?_, fun s => rfl⟩
  intro s h1 h2
  simp [ProhibitionBase.amount_due, h1, h2]

/-- Witness for C6: an unrecognized presentation type and the
`UnlicencedDriver` oral case. -/
theorem C6_amount_due_schedule_witness :
    ProhibitionBase.amount_due "OTHR" = none ∧
    UnlicencedDriver.amount_due "ORAL" = some 50 :=
  ⟨C6_amount_due_schedule.2.2.1 "OTHR" (by decide) (by decide),
    C6_amount_due_schedule.2.2.2 "ORAL"⟩

/-- C10: with a naive (tzinfo-free) service date, the base review-window
computation hits an undefined aware-vs-naive order comparison and errors
(`none`) instead of returning a window, whatever `today` is. -/
theorem C10_naive_service_date_errors :
    ∀ sd today : PyDatetime, sd.tzoffset = none →
      ProhibitionBase.get_min_max_review_dates sd today = none := by
  intro sd today h
  simp [ProhibitionBase.get_min_max_review_dates, pyLt?, addDays, replace_tzinfo, h]

/-- Witness for C10 at a concrete naive service date. -/
theorem C10_naive_service_date_errors_witness :
    ProhibitionBase.get_min_max_review_dates ⟨0, none⟩ ⟨0, none⟩ = none :=
  C10_naive_service_date_errors ⟨0, none⟩ ⟨0, none⟩ rfl

/-- C3: when both legislated bounds (`serviceDate + 6 days` and
`serviceDate + 16 days`) are strictly earlier than `earliestPossible`
(`normalize(today) + 4 days`), the base computation returns the degenerate
window `(earliestPossible, earliestPossible)` — a value, not an error. -/
theorem C3_base_window_collapse :
    ∀ sd today : PyDatetime,
      pyLt? (addDays sd ProhibitionBase.MIN_DAYS_FROM_SERVED_TO_REVIEW)
        (addDays (replace_tzinfo today vancouverOffset)
          ProhibitionBase.MIN_DAYS_FROM_SCHEDULING_TO_REVIEW) = some true →
      pyLt? (addDays sd ProhibitionBase.MAX_DAYS_FROM_SERVED_TO_REVIEW)
        (addDays (replace_tzinfo today vancouverOffset)
          ProhibitionBase.MIN_DAYS_FROM_SCHEDULING_TO_REVIEW) = some true →
      ProhibitionBase.get_min_max_review_dates sd today =
        some (addDays (replace_tzinfo today vancouverOffset)
          ProhibitionBase.MIN_DAYS_FROM_SCHEDULING_TO_REVIEW,
          addDays (replace_tzinfo today vancouverOffset)
          ProhibitionBase.MIN_DAYS_FROM_SCHEDULING_TO_REVIEW) := by
  intro sd today h6 h16
  unfold ProhibitionBase.get_min_max_review_dates
  simp only [h6, h16]
  simp

/-- Witness for C3: a service date 100 days in the past (UTC) against a
naive `today` at the epoch. -/
theorem C3_base_window_collapse_witness :
    pyLt? (addDays ⟨-8640000, some 0⟩ ProhibitionBase.MIN_DAYS_FROM_SERVED_TO_REVIEW)
      (addDays (replace_tzinfo ⟨0, none⟩ vancouverOffset)
        ProhibitionBase.MIN_DAYS_FROM_SCHEDULING_TO_REVIEW) = some true ∧
    ProhibitionBase.get_min_max_review_dates ⟨-8640000, some 0⟩ ⟨0, none⟩ =
      some (addDays (replace_tzinfo ⟨0, none⟩ vancouverOffset)
        ProhibitionBase.MIN_DAYS_FROM_SCHEDULING_TO_REVIEW,
        addDays (replace_tzinfo ⟨0, none⟩ vancouverOffset)
        ProhibitionBase.MIN_DAYS_FROM_SCHEDULING_TO_REVIEW) :=
  ⟨by decide, C3_base_window_collapse ⟨-8640000, some 0⟩ ⟨0, none⟩ (by decide) (by decide)⟩

/-- C1: for every policy variant and every service date and `today` for
which a window is returned at all, the window satisfies
`minimumDate ≤ maximumDate` under Python's datetime order (including the
degenerate equal case). -/
theorem C1_review_window_invariant :
    ∀ (pt : ProhibitionType) (sd today mn mx : PyDatetime),
      pt.get_min_max_review_dates sd today = some (mn, mx) →
      pyLe? mn mx = some true := by
  intro pt sd today mn mx h
  have base :
      ProhibitionBase.get_min_max_review_dates sd today = some (mn, mx) →
      pyLe? mn mx = some true := by
    intro hb
    obtain ⟨ws, os⟩ := sd
    obtain ⟨wt, ot⟩ := today
    cases os with
    | none =>
      simp [ProhibitionBase.get_min_max_review_dates, pyLt?, addDays, replace_tzinfo] at hb
    | some o =>
      simp only [ProhibitionBase.get_min_max_review_dates, pyLt?, addDays,
        replace_tzinfo, SECONDS_PER_DAY, ProhibitionBase.MIN_DAYS_FROM_SCHEDULING_TO_REVIEW,
        ProhibitionBase.MIN_DAYS_FROM_SERVED_TO_REVIEW,
        ProhibitionBase.MAX_DAYS_FROM_SERVED_TO_REVIEW] at hb
      split at hb <;> split at hb <;>
        simp only [Option.some.injEq, Prod.mk.injEq] at hb <;>
        obtain ⟨rfl, rfl⟩ := hb <;>
        simp_all only [decide_eq_true_eq, decide_eq_false_iff_not, not_lt, pyLe?,
          Option.some.injEq, decide_eq_true_eq] <;>
        omega
  cases pt with
  | unlicencedDriver =>
    simp only [ProhibitionType.get_min_max_review_dates,
      UnlicencedDriver.get_min_max_review_dates, Option.some.injEq, Prod.mk.injEq] at h
    obtain ⟨rfl, rfl⟩ := h
    obtain ⟨wt, ot⟩ := today
    cases ot <;>
      simp [localize_timezone, addDays, pyLe?, SECONDS_PER_DAY,
        UnlicencedDriver.MIN_DAYS_FROM_SCHEDULING_TO_REVIEW,
        UnlicencedDriver.MAX_DAYS_FROM_SERVED_TO_REVIEW,
        ProhibitionBase.MIN_DAYS_FROM_SCHEDULING_TO_REVIEW,
        ProhibitionBase.MAX_DAYS_FROM_SERVED_TO_REVIEW]
  | base => exact base h
  | immediateRoadside => exact base h
  | administrativeDriving => exact base h

/-- C2: the base review-window computation agrees with the five-step spec
algorithm (`earliestPossible = normalize(today) + 4 days`, `minimumDate =
max(earliestPossible, serviceDate + 6 days)`, `maximumDate =
max(earliestPossible, serviceDate + 16 days)`) up to Python datetime
equality, with the same definedness; and the normalizer used attaches the
fixed America/Vancouver offset while leaving the wall clock unchanged. -/
theorem C2_base_window_matches_spec_algorithm :
    (∀ sd today : PyDatetime,
      windowResultsAgree (ProhibitionBase.get_min_max_review_dates sd today)
        (computeWindow_spec sd today)) ∧
    (∀ t : PyDatetime, (replace_tzinfo t vancouverOffset).wall = t.wall ∧
      replace_tzinfo t vancouverOffset = normalize_spec t) := by
  refine ⟨?_, fun t => ⟨rfl, rfl⟩⟩
  intro sd today
  obtain ⟨ws, os⟩ := sd
  obtain ⟨wt, ot⟩ := today
  cases os with
  | none =>
    simp [ProhibitionBase.get_min_max_review_dates, computeWindow_spec, pymax,
      pyLt?, addDays, replace_tzinfo, normalize_spec, windowResultsAgree]
  | some o =>
    simp only [ProhibitionBase.get_min_max_review_dates, computeWindow_spec, pymax,
      pyLt?, addDays, replace_tzinfo, normalize_spec, SECONDS_PER_DAY,
      ProhibitionBase.MIN_DAYS_FROM_SCHEDULING_TO_REVIEW,
      ProhibitionBase.MIN_DAYS_FROM_SERVED_TO_REVIEW,
      ProhibitionBase.MAX_DAYS_FROM_SERVED_TO_REVIEW]
    split <;> split <;> split <;> split <;>
      simp_all only [windowResultsAgree, pyEq?, decide_eq_true_eq,
        decide_eq_false_iff_not, not_lt, Option.some.injEq, and_true, true_and] <;>
      omega

/-- Witness for C1: the base variant on an aware service date at the epoch
with a naive `today` at the epoch. -/
theorem C1_review_window_invariant_witness :
    ProhibitionType.get_min_max_review_dates ProhibitionType.base ⟨0, some 0⟩ ⟨0, none⟩ =
      some (⟨518400, some 0⟩, ⟨1382400, some 0⟩) ∧
    pyLe? ⟨518400, some 0⟩ ⟨1382400, some 0⟩ = some true :=
  ⟨by decide,
    C1_review_window_invariant ProhibitionType.base ⟨0, some 0⟩ ⟨0, none⟩
      ⟨518400, some 0⟩ ⟨1382400, some 0⟩ (by decide)⟩

/-- Each digit below ten is read back from its character. -/
theorem digitVal_digitChar : ∀ n : Nat, n < 10 → digitVal (digitChar n) = some n := by
  decide

/-- Two-digit numbers survive the pad-then-read round trip. -/
theorem read2_pad2 (n : Nat) (h : n < 100) :
    read2 (digitChar (n / 10)) (digitChar (n % 10)) = some n := by
  unfold read2
  rw [digitVal_digitChar (n / 10) (by omega), digitVal_digitChar (n % 10) (by omega)]
  simp only [Option.some.injEq]
  omega

/-- Four-digit numbers survive the pad-then-read round trip. -/
theorem read4_pad4 (n : Nat) (h : n < 10000) :
    read4 (digitChar (n / 1000)) (digitChar (n / 100 % 10)) (digitChar (n / 10 % 10))
      (digitChar (n % 10)) = some n := by
  unfold read4
  rw [digitVal_digitChar (n / 1000) (by omega), digitVal_digitChar (n / 100 % 10) (by omega),
    digitVal_digitChar (n / 10 % 10) (by omega), digitVal_digitChar (n % 10) (by omega)]
  simp only [Option.some.injEq]
  omega

/-- C7: formatting a valid timezone-aware timestamp in the external
`YYYY-MM-DD HH:MM:SS ±HH:MM` shape and parsing the string back returns the
very same timestamp. -/
theorem C7_external_date_round_trip (t : VipsDateTime) (h : t.valid) :
    vips_str_to_datetime (vips_datetime t) = some t := by
  obtain ⟨y, mo, d, hh, mi, se, sg, oh, om⟩ := t
  simp only [VipsDateTime.valid] at h
  obtain ⟨hy, hmo1, hmo2, hd1, hd2, hh24, hmi, hse, hoh, hom⟩ := h
  simp only [vips_str_to_datetime, vips_datetime, fmtChars, pad4, pad2,
    List.cons_append, List.nil_append]
  cases sg <;>
    simp only [Bool.false_eq_true, if_false, if_true, parseVipsChars] <;>
    rw [read4_pad4 y (by omega), read2_pad2 mo (by omega), read2_pad2 d (by omega),
      read2_pad2 hh (by omega), read2_pad2 mi (by omega), read2_pad2 se (by omega),
      read2_pad2 oh (by omega), read2_pad2 om (by omega)] <;>
    simp_all [VipsDateTime.valid]

/-- C8: `list_of_weekdays_dates_between` is empty when `start > end`,
contains exactly the dates of the inclusive range whose weekday is
Monday–Friday (weekend endpoints included in the range are skipped), is
strictly increasing, and on 2020-09-01 … 2020-09-07 yields exactly the five
business days 09-01, 09-02, 09-03, 09-04 and 09-07. -/
theorem C8_weekdays_between_characterization :
    (∀ s e : Int, e < s → list_of_weekdays_dates_between s e = []) ∧
    (∀ s e d : Int, d ∈ list_of_weekdays_dates_between s e ↔
      s ≤ d ∧ d ≤ e ∧ pyWeekday d < 5) ∧
    (∀ s e : Int, (list_of_weekdays_dates_between s e).Pairwise (· < ·)) ∧
    list_of_weekdays_dates_between (days_from_civil 2020 9 1) (days_from_civil 2020 9 7) =
      [days_from_civil 2020 9 1, days_from_civil 2020 9 2, days_from_civil 2020 9 3,
        days_from_civil 2020 9 4, days_from_civil 2020 9 7] := by
  refine ⟨?_, ?_, ?_, by decide⟩
  · intro s e h
    unfold list_of_weekdays_dates_between
    have hz : (e + 1 - s).toNat = 0 := by omega
    rw [hz]
    rfl
  · intro s e d
    unfold list_of_weekdays_dates_between
    simp only [List.mem_filter, List.mem_map, List.mem_range, decide_eq_true_eq]
    constructor
    · rintro ⟨⟨i, hi, rfl⟩, hp⟩
      exact ⟨by omega, by omega, hp⟩
    · rintro ⟨h1, h2, hp⟩
      exact ⟨⟨(d - s).toNat, by omega, by omega⟩, hp⟩
  · intro s e
    unfold list_of_weekdays_dates_between
    apply List.Pairwise.filter
    simp only [List.pairwise_map]
    exact (List.pairwise_lt_range _).imp (by intro a b h; omega)

/-- Witness for C8: an inverted range is empty and a concrete membership
test on the 2020-09 week. -/
theorem C8_weekdays_between_characterization_witness :
    list_of_weekdays_dates_between 1 0 = [] ∧
    (18512 ∈ list_of_weekdays_dates_between 18506 18512 ↔
      (18506 : Int) ≤ 18512 ∧ (18512 : Int) ≤ 18512 ∧ pyWeekday 18512 < 5) :=
  ⟨C8_weekdays_between_characterization.1 1 0 (by decide),
    C8_weekdays_between_characterization.2.1 18506 18512 18512⟩

/-- Witness for C7 at the timestamp `2019-01-02 17:30:00 -08:00` used by the
repository's own test data. -/
theorem C7_external_date_round_trip_witness :
    VipsDateTime.valid ⟨2019, 1, 2, 17, 30, 0, true, 8, 0⟩ ∧
    vips_str_to_datetime (vips_datetime ⟨2019, 1, 2, 17, 30, 0, true, 8, 0⟩) =
      some ⟨2019, 1, 2, 17, 30, 0, true, 8, 0⟩ :=
  ⟨by decide, C7_external_date_round_trip ⟨2019, 1, 2, 17, 30, 0, true, 8, 0⟩ (by decide)⟩

/-- Counterexample to C9 as stated: per the spec, slots marked unavailable
by the external system are excluded, so an input slot whose tag matches the
presentation type but which is unavailable yields no output slot — the
output does not contain one entry per tag-matching input slot. -/
theorem C9_counterexample_unavailable_slot :
    (time_slots_to_friendly_times [fixtureSlot false 9 0 9 30] "ORAL").length = 0 ∧
    (List.filter (fun s => s.tag == "ORAL") [fixtureSlot false 9 0 9 30]).length = 1 := by
  decide

/-- C9 (amended): `time_slots_to_friendly_times` returns, in the input
order, one friendly slot per available input slot whose tag matches the
presentation type, each labelled by `friendlyLabel` (weekday abbreviation,
month abbreviation, day, year, then a 12-hour range without leading zero);
on the known all-available 5-slot fixture with mode `ORAL` the labels are
exactly the five expected strings. -/
theorem C9_friendly_times_amended :
    (∀ (slots : List ScheduleSlot) (pt : String),
      (time_slots_to_friendly_times slots pt).map (fun f => (f.start, f.stop)) =
        (slots.filter (fun s => s.available && s.tag == pt)).map
          (fun s => (s.start, s.stop))) ∧
    (∀ (slots : List ScheduleSlot) (pt : String) (f : FriendlyTimeSlot),
      f ∈ time_slots_to_friendly_times slots pt →
        f.label = friendlyLabel f.start f.stop) ∧
    (time_slots_to_friendly_times scheduleFixture "ORAL").map FriendlyTimeSlot.label =
      ["Fri, Sep 4, 2020 - 9:00AM to 9:30AM", "Fri, Sep 4, 2020 - 10:00AM to 10:30AM",
        "Fri, Sep 4, 2020 - 11:00AM to 11:30AM", "Fri, Sep 4, 2020 - 12:00PM to 12:30PM",
        "Fri, Sep 4, 2020 - 1:00PM to 1:30PM"] := by
  refine ⟨?_, ?_, by decide⟩
  · intro slots pt
    unfold time_slots_to_friendly_times
    rw [List.map_map]
    rfl
  · intro slots pt f hf
    unfold time_slots_to_friendly_times at hf
    simp only [List.mem_map] at hf
    obtain ⟨s, hs, rfl⟩ := hf
    rfl

/-- Witness for C9 (amended): the first fixture slot's friendly label. -/
theorem C9_friendly_times_amended_witness :
    FriendlyTimeSlot.label
        { label := "Fri, Sep 4, 2020 - 9:00AM to 9:30AM",
          start := (fixtureSlot true 9 0 9 30).start,
          stop := (fixtureSlot true 9 0 9 30).stop } =
      friendlyLabel (fixtureSlot true 9 0 9 30).start (fixtureSlot true 9 0 9 30).stop :=
  C9_friendly_times_amended.2.1 scheduleFixture "ORAL" _ (by decide)
